import Mathlib

/-!
Verification of the SSD1309 OLED display driver (`ssd1309.py`, class
`SSD1309_SPI`) against its specification.

The driver is shallowly embedded at two granularities:

* A wire/trace model: every externally visible action of the driver is an
  `Emit` event — a control-pin initialization, a control-pin level write, a
  blocking millisecond delay, a single framed command-mode byte
  (`write_cmd`, lines 255-267 of the source), or one framed data-mode block
  write (`write_data`, lines 269-283).  Each driver method is translated to
  the list of events it emits, exactly in source order; the mutable object
  state (`width`, `height`, `pages`, `buffer`) is threaded explicitly as a
  `DisplayState`.

* A pin-level model of the framed writes themselves (`write_cmd` /
  `write_data`), which tracks the chip-select and data/command lines and
  models a transport write that may raise: on a raise, the statements after
  `self.spi.write(...)` do not run, exactly as in Python.
-/

namespace SSD1309

/-! ### Command constants (source lines 104-150) -/

def DISPLAY_OFF : Nat := 0xAE
def DISPLAY_ON : Nat := 0xAF
def SET_DISPLAY_ALL_ON_RESUME : Nat := 0xA4
def SET_NORMAL_DISPLAY : Nat := 0xA6
def SET_INVERTED_DISPLAY : Nat := 0xA7
def DEACTIVATE_SCROLL : Nat := 0x2E
def SET_MEMORY_MODE : Nat := 0x20
def SET_COLUMN_ADDR : Nat := 0x21
def SET_PAGE_ADDR : Nat := 0x22
def SET_START_LINE : Nat := 0x40
def SET_SEG_REMAP_INV : Nat := 0xA1
def SET_MULTIPLEX : Nat := 0xA8
def SET_COM_SCAN_DEC : Nat := 0xC8
def SET_DISPLAY_OFFSET : Nat := 0xD3
def SET_COM_PINS : Nat := 0xDA
def SET_CLOCK_DIV : Nat := 0xD5
def SET_PRECHARGE : Nat := 0xD9
def SET_VCOMH_DESELECT : Nat := 0xDB
def SET_CONTRAST : Nat := 0x81
def SET_COMMAND_LOCK : Nat := 0xFD
def ADDR_MODE_HORIZONTAL : Nat := 0x00
def DEFAULT_CONTRAST : Nat := 0xCF
def DEFAULT_PRECHARGE : Nat := 0xF1
def DEFAULT_VCOMH : Nat := 0x30
def DEFAULT_CLOCK_DIV : Nat := 0x80
def DEFAULT_COM_PINS : Nat := 0x12

/-! ### Wire/trace model -/

/-- The three control lines of the 4-wire SPI hookup. -/
inductive Line where
  | dc
  | rst
  | cs
deriving DecidableEq, Repr

/-- One externally visible action of the driver.  `cmdByte b` is one framed
single-byte write in command mode (one `write_cmd` call); `dataBlock bs` is
one framed write of a whole byte run in data mode (one `write_data` call);
`pinInit` / `pinSet` are control-pin configuration and level writes;
`sleepMs` is a blocking delay. -/
inductive Emit where
  | pinInit (l : Line) (v : Nat)
  | pinSet (l : Line) (v : Nat)
  | sleepMs (ms : Nat)
  | cmdByte (b : Nat)
  | dataBlock (bs : List Nat)
deriving DecidableEq, Repr

/-- The mutable attributes of an `SSD1309_SPI` object that the protocol layer
reads: `width`, `height`, `pages` and the pixel `buffer` (a `bytearray` of
`width * pages` bytes). -/
structure DisplayState where
  width : Nat
  height : Nat
  pages : Nat
  buffer : List Nat
deriving DecidableEq, Repr

/-- Method `reset()` (source lines 234-253): rst←1, sleep 1 ms, rst←0, sleep 10 ms,
rst←1, sleep 10 ms. -/
def reset_emits : List Emit :=
  [.pinSet .rst 1, .sleepMs 1, .pinSet .rst 0, .sleepMs 10,
   .pinSet .rst 1, .sleepMs 10]

/-- Method `init_display()` (source lines 285-372): the 26 framed command bytes, in
source order.  The only height dependence is the multiplex-ratio parameter
`height - 1`. -/
def init_display (height : Nat) : List Emit :=
  [.cmdByte SET_COMMAND_LOCK, .cmdByte 0x12,
   .cmdByte DISPLAY_OFF,
   .cmdByte SET_CLOCK_DIV, .cmdByte DEFAULT_CLOCK_DIV,
   .cmdByte SET_MULTIPLEX, .cmdByte (height - 1),
   .cmdByte SET_DISPLAY_OFFSET, .cmdByte 0x00,
   .cmdByte (SET_START_LINE ||| 0x00),
   .cmdByte SET_MEMORY_MODE, .cmdByte ADDR_MODE_HORIZONTAL,
   .cmdByte SET_SEG_REMAP_INV,
   .cmdByte SET_COM_SCAN_DEC,
   .cmdByte SET_COM_PINS, .cmdByte DEFAULT_COM_PINS,
   .cmdByte SET_CONTRAST, .cmdByte DEFAULT_CONTRAST,
   .cmdByte SET_PRECHARGE, .cmdByte DEFAULT_PRECHARGE,
   .cmdByte SET_VCOMH_DESELECT, .cmdByte DEFAULT_VCOMH,
   .cmdByte SET_DISPLAY_ALL_ON_RESUME,
   .cmdByte SET_NORMAL_DISPLAY,
   .cmdByte DEACTIVATE_SCROLL,
   .cmdByte DISPLAY_ON]

/-- Method `show()` (source lines 374-402): six framed command bytes setting the
column window `0 .. width-1` and the page window `0 .. pages-1`, then the
whole buffer as one framed data-mode write.  `show()` assigns no attribute,
so the state is read, never written. -/
def show_emits (s : DisplayState) : List Emit :=
  [.cmdByte SET_COLUMN_ADDR, .cmdByte 0x00, .cmdByte (s.width - 1),
   .cmdByte SET_PAGE_ADDR, .cmdByte 0x00, .cmdByte (s.pages - 1),
   .dataBlock s.buffer]

/-- Method `contrast(value)` (source lines 404-419): `value = max(0, min(255,
value))`, then the contrast opcode and the clamped byte, each as a framed
command write. -/
def contrast (value : Int) : List Emit :=
  let value2 := max 0 (min 255 value)
  [.cmdByte SET_CONTRAST, .cmdByte value2.toNat]

/-- Method `invert(invert)` (source lines 421-432). -/
def invert (inv : Bool) : List Emit :=
  if inv then [.cmdByte SET_INVERTED_DISPLAY]
  else [.cmdByte SET_NORMAL_DISPLAY]

/-- Method `poweroff()` (source lines 434-443). -/
def poweroff : List Emit := [.cmdByte DISPLAY_OFF]

/-- Method `poweron()` (source lines 445-452). -/
def poweron : List Emit := [.cmdByte DISPLAY_ON]

/-- The control-pin configuration performed by `__init__` (source lines
209-216): dc as output at 0, rst as output at 1, cs as output at 1. -/
def pin_setup_emits : List Emit :=
  [.pinInit .dc 0, .pinInit .rst 1, .pinInit .cs 1]

/-- Constructor `__init__` (source lines 197-232): validate the geometry — on a bad
(width, height) pair a `ValueError` is raised before any pin or bus action,
modelled as `(none, [])` — otherwise configure the pins, build the
zero-filled `width * pages` byte buffer, run `reset()` and `init_display()`. -/
def mkDisplay (width height : Nat) : Option DisplayState × List Emit :=
  if width ≠ 128 ∨ (height ≠ 32 ∧ height ≠ 64) then (none, [])
  else
    (some { width := width, height := height, pages := height / 8,
            buffer := List.replicate (width * (height / 8)) 0 },
     pin_setup_emits ++ reset_emits ++ init_display height)

/-- The public operations available on a constructed driver. -/
inductive Op where
  | show'
  | contrast' (value : Int)
  | invert' (inv : Bool)
  | poweroff'
  | poweron'
deriving DecidableEq, Repr

/-- Run one operation: the resulting object state and the emitted events.
None of these methods assigns an attribute or writes into `buffer`, so the
state passes through unchanged. -/
def runOp (s : DisplayState) : Op → DisplayState × List Emit
  | .show' => (s, show_emits s)
  | .contrast' v => (s, contrast v)
  | .invert' b => (s, invert b)
  | .poweroff' => (s, poweroff)
  | .poweron' => (s, poweron)

/-- Run a sequence of operations, concatenating the emitted events. -/
def runOps (s : DisplayState) : List Op → DisplayState × List Emit
  | [] => (s, [])
  | op :: rest =>
    let r1 := runOp s op
    let r2 := runOps r1.1 rest
    (r2.1, r1.2 ++ r2.2)

/-! ### Opcode positions in a command-byte stream

Each byte of a command group travels as an independent framed command-mode
write, so the wire stream itself does not mark which bytes are opcodes.  The
controller parses it with the fixed command-length table of the protocol
(spec section 4.3): these opcodes take one parameter byte, the two
addressing-window opcodes take two, all others take none. -/

/-- Number of parameter bytes following an opcode (spec section 4.3). -/
def paramCount (b : Nat) : Nat :=
  if b = SET_COMMAND_LOCK ∨ b = SET_CLOCK_DIV ∨ b = SET_MULTIPLEX ∨
     b = SET_DISPLAY_OFFSET ∨ b = SET_MEMORY_MODE ∨ b = SET_COM_PINS ∨
     b = SET_CONTRAST ∨ b = SET_PRECHARGE ∨ b = SET_VCOMH_DESELECT then 1
  else if b = SET_COLUMN_ADDR ∨ b = SET_PAGE_ADDR then 2
  else 0

/-- The opcode positions of a command-byte stream: the first byte is an
opcode, and after each opcode its parameter bytes are skipped. -/
def opcodes : List Nat → List Nat
  | [] => []
  | b :: rest => b :: opcodes (rest.drop (paramCount b))
termination_by l => l.length
decreasing_by
  simp only [List.length_drop, List.length_cons]
  omega

/-- The bytes sent in command mode, in order, of an event trace. -/
def cmdBytes (t : List Emit) : List Nat :=
  t.filterMap fun e =>
    match e with
    | .cmdByte b => some b
    | _ => none

/-! ### Pin-level model of the framed writes (source lines 255-283)

`write_cmd` runs `cs←0; dc←0; spi.write([cmd]); cs←1` and `write_data` runs
`cs←0; dc←1; spi.write(buf); cs←1`, with no exception handler: if the
transport write raises, the statements after it do not run.  `ok` says
whether the transport write succeeds; the result is the final pin levels,
the bytes that reached the bus, and the success flag. -/

/-- Chip-select and data/command levels (0 = asserted / command mode). -/
structure Pins where
  cs : Nat
  dc : Nat
deriving DecidableEq, Repr

/-- Method `write_cmd(cmd)` at pin level. -/
def write_cmd (ok : Bool) (p : Pins) (cmd : Nat) : Pins × List Nat × Bool :=
  let p1 : Pins := { p with cs := 0 }
  let p2 : Pins := { p1 with dc := 0 }
  if ok then ({ p2 with cs := 1 }, [cmd], true)
  else (p2, [], false)

/-- Method `write_data(buf)` at pin level. -/
def write_data (ok : Bool) (p : Pins) (buf : List Nat) :
    Pins × List Nat × Bool :=
  let p1 : Pins := { p with cs := 0 }
  let p2 : Pins := { p1 with dc := 1 }
  if ok then ({ p2 with cs := 1 }, buf, true)
  else (p2, [], false)

/-- Test returning `true` exactly on framed command-mode byte events. -/
def Emit.isCmd : Emit → Bool
  | .cmdByte _ => true
  | _ => false

/-! ### Helper lemmas -/

/-- No public operation assigns an attribute, so the object state is
unchanged by a single call. -/
theorem runOp_fst (s : DisplayState) (op : Op) : (runOp s op).1 = s := by
  cases op <;> rfl

/-- The object state is unchanged by any call history. -/
theorem runOps_fst (s : DisplayState) (ops : List Op) :
    (runOps s ops).1 = s := by
  induction ops generalizing s with
  | nil => rfl
  | cons op rest ih =>
    show (runOps (runOp s op).1 rest).1 = s
    rw [runOp_fst, ih]

theorem runOps_cons (s : DisplayState) (op : Op) (rest : List Op) :
    (runOps s (op :: rest)).2 = (runOp s op).2 ++ (runOps s rest).2 := by
  show (runOp s op).2 ++ (runOps (runOp s op).1 rest).2 = _
  rw [runOp_fst]

theorem cmdBytes_append (a b : List Emit) :
    cmdBytes (a ++ b) = cmdBytes a ++ cmdBytes b := by
  simp [cmdBytes]

/-- Inversion of a successful construction: the state fields and the emitted
trace. -/
theorem mkDisplay_some (w h : Nat) (s : DisplayState) (t : List Emit)
    (hmk : mkDisplay w h = (some s, t)) :
    s = ⟨w, h, h / 8, List.replicate (w * (h / 8)) 0⟩ ∧
    t = pin_setup_emits ++ reset_emits ++ init_display h := by
  unfold mkDisplay at hmk
  split at hmk
  · simp at hmk
  · rw [Prod.mk.injEq, Option.some.injEq] at hmk
    exact ⟨hmk.1.symm, hmk.2.symm⟩

theorem opcodes_cons (b : Nat) (l : List Nat) :
    opcodes (b :: l) = b :: opcodes (l.drop (paramCount b)) := by
  rw [opcodes]

/-- Opcode positions of the initialization command stream, ahead of any
continuation: step 1's unlock opcode first, step 17's display-on opcode
last, and no opcode is ever the charge-pump byte `0x8D`. -/
theorem opcodes_init_append (h : Nat) (ys : List Nat) :
    opcodes (cmdBytes (init_display h) ++ ys) =
      [0xFD, 0xAE, 0xD5, 0xA8, 0xD3, 0x40, 0x20, 0xA1, 0xC8, 0xDA,
       0x81, 0xD9, 0xDB, 0xA4, 0xA6, 0x2E, 0xAF] ++ opcodes ys := by
  simp [init_display, cmdBytes, opcodes_cons, paramCount,
    SET_COMMAND_LOCK, DISPLAY_OFF, SET_CLOCK_DIV, DEFAULT_CLOCK_DIV,
    SET_MULTIPLEX, SET_DISPLAY_OFFSET, SET_START_LINE, SET_MEMORY_MODE,
    ADDR_MODE_HORIZONTAL, SET_SEG_REMAP_INV, SET_COM_SCAN_DEC, SET_COM_PINS,
    DEFAULT_COM_PINS, SET_CONTRAST, DEFAULT_CONTRAST, SET_PRECHARGE,
    DEFAULT_PRECHARGE, SET_VCOMH_DESELECT, DEFAULT_VCOMH,
    SET_DISPLAY_ALL_ON_RESUME, SET_NORMAL_DISPLAY, DEACTIVATE_SCROLL,
    DISPLAY_ON, SET_COLUMN_ADDR, SET_PAGE_ADDR]

/-- Opcode positions of one operation's command stream, ahead of any
continuation: each operation contributes a fixed opcode list — parameter
bytes (clamped contrast values, window bounds) are never parsed as
opcodes — and none of those opcodes is `0x8D`. -/
theorem opcodes_op_append (s : DisplayState) (op : Op) (ys : List Nat) :
    ∃ os, opcodes (cmdBytes ((runOp s op).2) ++ ys) = os ++ opcodes ys ∧
      (0x8D : Nat) ∉ os := by
  cases op with
  | show' =>
    refine ⟨[0x21, 0x22], ?_, by decide⟩
    simp [runOp, show_emits, cmdBytes, opcodes_cons, paramCount,
      SET_COLUMN_ADDR, SET_PAGE_ADDR, SET_COMMAND_LOCK, SET_CLOCK_DIV,
      SET_MULTIPLEX, SET_DISPLAY_OFFSET, SET_MEMORY_MODE, SET_COM_PINS,
      SET_CONTRAST, SET_PRECHARGE, SET_VCOMH_DESELECT]
  | contrast' v =>
    refine ⟨[0x81], ?_, by decide⟩
    simp [runOp, contrast, cmdBytes, opcodes_cons, paramCount,
      SET_COLUMN_ADDR, SET_PAGE_ADDR, SET_COMMAND_LOCK, SET_CLOCK_DIV,
      SET_MULTIPLEX, SET_DISPLAY_OFFSET, SET_MEMORY_MODE, SET_COM_PINS,
      SET_CONTRAST, SET_PRECHARGE, SET_VCOMH_DESELECT]
  | invert' b =>
    cases b with
    | true =>
      refine ⟨[0xA7], ?_, by decide⟩
      simp [runOp, invert, cmdBytes, opcodes_cons, paramCount,
        SET_INVERTED_DISPLAY, SET_COLUMN_ADDR, SET_PAGE_ADDR,
        SET_COMMAND_LOCK, SET_CLOCK_DIV, SET_MULTIPLEX, SET_DISPLAY_OFFSET,
        SET_MEMORY_MODE, SET_COM_PINS, SET_CONTRAST, SET_PRECHARGE,
        SET_VCOMH_DESELECT]
    | false =>
      refine ⟨[0xA6], ?_, by decide⟩
      simp [runOp, invert, cmdBytes, opcodes_cons, paramCount,
        SET_NORMAL_DISPLAY, SET_COLUMN_ADDR, SET_PAGE_ADDR,
        SET_COMMAND_LOCK, SET_CLOCK_DIV, SET_MULTIPLEX, SET_DISPLAY_OFFSET,
        SET_MEMORY_MODE, SET_COM_PINS, SET_CONTRAST, SET_PRECHARGE,
        SET_VCOMH_DESELECT]
  | poweroff' =>
    refine ⟨[0xAE], ?_, by decide⟩
    simp [runOp, poweroff, cmdBytes, opcodes_cons, paramCount, DISPLAY_OFF,
      SET_COLUMN_ADDR, SET_PAGE_ADDR, SET_COMMAND_LOCK, SET_CLOCK_DIV,
      SET_MULTIPLEX, SET_DISPLAY_OFFSET, SET_MEMORY_MODE, SET_COM_PINS,
      SET_CONTRAST, SET_PRECHARGE, SET_VCOMH_DESELECT]
  | poweron' =>
    refine ⟨[0xAF], ?_, by decide⟩
    simp [runOp, poweron, cmdBytes, opcodes_cons, paramCount, DISPLAY_ON,
      SET_COLUMN_ADDR, SET_PAGE_ADDR, SET_COMMAND_LOCK, SET_CLOCK_DIV,
      SET_MULTIPLEX, SET_DISPLAY_OFFSET, SET_MEMORY_MODE, SET_COM_PINS,
      SET_CONTRAST, SET_PRECHARGE, SET_VCOMH_DESELECT]

/-- Opcode positions of the command stream of any call history, ahead of
any continuation: never `0x8D`. -/
theorem opcodes_runOps_append (s : DisplayState) (ops : List Op)
    (ys : List Nat) :
    ∃ os, opcodes (cmdBytes ((runOps s ops).2) ++ ys) = os ++ opcodes ys ∧
      (0x8D : Nat) ∉ os := by
  induction ops generalizing ys with
  | nil => exact ⟨[], by simp [runOps, cmdBytes], by decide⟩
  | cons op rest ih =>
    obtain ⟨os1, h1, h1n⟩ :=
      opcodes_op_append s op (cmdBytes ((runOps s rest).2) ++ ys)
    obtain ⟨os2, h2, h2n⟩ := ih ys
    refine ⟨os1 ++ os2, ?_, ?_⟩
    · rw [runOps_cons, cmdBytes_append, List.append_assoc, h1, h2,
        List.append_assoc]
    · simp only [List.mem_append]
      rintro (h | h)
      · exact h1n h
      · exact h2n h

theorem opcodes_nil : opcodes [] = [] := by
  rw [opcodes]

/-! ### Claim theorems -/

/-- C1: on a controller constructed with width `w` and `h / 8` pages, every
`show()` call — after any prior call history — emits exactly the six
command-mode bytes `0x21, 0x00, w-1, 0x22, 0x00, pages-1` in that order,
followed immediately by the whole `w * pages`-byte pixel buffer as one
single data-mode write. -/
theorem C1_show_wire (w h : Nat) (s : DisplayState) (t : List Emit)
    (ops : List Op) (hmk : mkDisplay w h = (some s, t)) :
    show_emits (runOps s ops).1 =
      [Emit.cmdByte 0x21, Emit.cmdByte 0x00, Emit.cmdByte (w - 1),
       Emit.cmdByte 0x22, Emit.cmdByte 0x00, Emit.cmdByte (h / 8 - 1),
       Emit.dataBlock (runOps s ops).1.buffer] ∧
    (runOps s ops).1.buffer.length = w * (h / 8) := by
  obtain ⟨hs, -⟩ := mkDisplay_some w h s t hmk
  rw [runOps_fst, hs]
  exact ⟨rfl, by simp⟩

/-- Witness for C1: a concrete 128×64 construction and a nonempty call
history. -/
theorem C1_show_wire_witness :
    mkDisplay 128 64 =
      (some ⟨128, 64, 8, List.replicate 1024 0⟩,
       pin_setup_emits ++ reset_emits ++ init_display 64) ∧
    (show_emits (runOps ⟨128, 64, 8, List.replicate 1024 0⟩
        [Op.poweroff', Op.invert' true, Op.show']).1 =
      [Emit.cmdByte 0x21, Emit.cmdByte 0x00, Emit.cmdByte 127,
       Emit.cmdByte 0x22, Emit.cmdByte 0x00, Emit.cmdByte 7,
       Emit.dataBlock (runOps ⟨128, 64, 8, List.replicate 1024 0⟩
          [Op.poweroff', Op.invert' true, Op.show']).1.buffer] ∧
     (runOps ⟨128, 64, 8, List.replicate 1024 0⟩
        [Op.poweroff', Op.invert' true, Op.show']).1.buffer.length = 1024) :=
  ⟨rfl, C1_show_wire 128 64 _ _ _ rfl⟩

/-- C2: the command bytes of the construction trace are exactly the
initialization sequence: the unlock pair `0xFD, 0x12` first, display-on
`0xAF` last, and between them the fixed middle sequence of spec steps
2–16 (display off; clock divide; multiplex ratio `height-1`; offset 0;
start line 0; horizontal addressing; segment remap; COM scan direction;
COM pins; contrast; precharge; VCOMH; resume-from-RAM; normal display;
deactivate scroll), in that order. -/
theorem C2_init_sequence (w h : Nat) (s : DisplayState) (t : List Emit)
    (hmk : mkDisplay w h = (some s, t)) :
    cmdBytes t =
      [0xFD, 0x12] ++
      [0xAE, 0xD5, 0x80, 0xA8, h - 1, 0xD3, 0x00, 0x40, 0x20, 0x00,
       0xA1, 0xC8, 0xDA, 0x12, 0x81, 0xCF, 0xD9, 0xF1, 0xDB, 0x30,
       0xA4, 0xA6, 0x2E] ++ [0xAF] := by
  obtain ⟨-, ht⟩ := mkDisplay_some w h s t hmk
  subst ht
  simp [cmdBytes, pin_setup_emits, reset_emits, init_display,
    SET_COMMAND_LOCK, DISPLAY_OFF, SET_CLOCK_DIV, DEFAULT_CLOCK_DIV,
    SET_MULTIPLEX, SET_DISPLAY_OFFSET, SET_START_LINE, SET_MEMORY_MODE,
    ADDR_MODE_HORIZONTAL, SET_SEG_REMAP_INV, SET_COM_SCAN_DEC, SET_COM_PINS,
    DEFAULT_COM_PINS, SET_CONTRAST, DEFAULT_CONTRAST, SET_PRECHARGE,
    DEFAULT_PRECHARGE, SET_VCOMH_DESELECT, DEFAULT_VCOMH,
    SET_DISPLAY_ALL_ON_RESUME, SET_NORMAL_DISPLAY, DEACTIVATE_SCROLL,
    DISPLAY_ON]

/-- Witness for C2 at the concrete 128×64 construction. -/
theorem C2_init_sequence_witness :
    mkDisplay 128 64 =
      (some ⟨128, 64, 8, List.replicate 1024 0⟩,
       pin_setup_emits ++ reset_emits ++ init_display 64) ∧
    cmdBytes (pin_setup_emits ++ reset_emits ++ init_display 64) =
      [0xFD, 0x12] ++
      [0xAE, 0xD5, 0x80, 0xA8, 63, 0xD3, 0x00, 0x40, 0x20, 0x00,
       0xA1, 0xC8, 0xDA, 0x12, 0x81, 0xCF, 0xD9, 0xF1, 0xDB, 0x30,
       0xA4, 0xA6, 0x2E] ++ [0xAF] :=
  ⟨rfl, C2_init_sequence 128 64 _ _ rfl⟩

/-- C3: across construction (reset plus the full initialization sequence)
and any subsequent history of `show` / `contrast` / `invert` / `poweroff` /
`poweron` calls, no opcode position of the emitted command stream ever
holds the charge-pump-enable opcode `0x8D` — parameter bytes (such as a
clamped contrast level of 141) are parsed as parameters, not opcodes. -/
theorem C3_no_charge_pump (w h : Nat) (s : DisplayState) (t : List Emit)
    (ops : List Op) (hmk : mkDisplay w h = (some s, t)) :
    (0x8D : Nat) ∉ opcodes (cmdBytes (t ++ (runOps s ops).2)) := by
  obtain ⟨-, ht⟩ := mkDisplay_some w h s t hmk
  subst ht
  obtain ⟨os, hos, hosn⟩ := opcodes_runOps_append s ops []
  rw [List.append_nil, opcodes_nil, List.append_nil] at hos
  rw [cmdBytes_append, cmdBytes_append, cmdBytes_append]
  have h1 : cmdBytes pin_setup_emits = [] := rfl
  have h2 : cmdBytes reset_emits = [] := rfl
  rw [h1, h2, List.nil_append, List.nil_append, opcodes_init_append, hos]
  intro hmem
  rcases List.mem_append.1 hmem with hm | hm
  · exact absurd hm (by decide)
  · exact hosn hm

/-- Witness for C3: the 128×64 construction followed by a history that
includes `contrast(141)`, whose clamped parameter byte is `0x8D` itself. -/
theorem C3_no_charge_pump_witness :
    mkDisplay 128 64 =
      (some ⟨128, 64, 8, List.replicate 1024 0⟩,
       pin_setup_emits ++ reset_emits ++ init_display 64) ∧
    (0x8D : Nat) ∉ opcodes (cmdBytes
      ((pin_setup_emits ++ reset_emits ++ init_display 64) ++
       (runOps ⟨128, 64, 8, List.replicate 1024 0⟩
         [Op.show', Op.contrast' 141, Op.invert' true,
          Op.poweroff', Op.poweron']).2)) :=
  ⟨rfl, C3_no_charge_pump 128 64 _ _ _ rfl⟩

set_option maxRecDepth 8192 in
/-- C4: construction succeeds exactly for width 128 and height 32 or 64,
with a pixel buffer of exactly `width * height / 8` bytes; any other pair
fails validation with `ValueError`, with no pin or bus action emitted. -/
theorem C4_geometry (w h : Nat) :
    (w = 128 ∧ (h = 32 ∨ h = 64) →
      ∃ s t, mkDisplay w h = (some s, t) ∧
        s.buffer.length = w * h / 8) ∧
    (¬(w = 128 ∧ (h = 32 ∨ h = 64)) → mkDisplay w h = (none, [])) := by
  constructor
  · rintro ⟨rfl, rfl | rfl⟩
    · exact ⟨_, _, rfl, by simp [List.length_replicate]⟩
    · exact ⟨_, _, rfl, by simp [List.length_replicate]⟩
  · intro hcond
    unfold mkDisplay
    rw [if_pos (by tauto)]

/-- Witness for C4: a supported geometry (128×64) succeeds with a
1024-byte buffer; an unsupported one (127×64) fails with the empty
trace. -/
theorem C4_geometry_witness :
    (∃ s t, mkDisplay 128 64 = (some s, t) ∧
      s.buffer.length = 128 * 64 / 8) ∧
    mkDisplay 127 64 = (none, []) :=
  ⟨(C4_geometry 128 64).1 (by decide), (C4_geometry 127 64).2 (by decide)⟩

/-- C5 counterexample: when the transport write raises, the framed writes
leave chip-select asserted (0 = selected) — `write_cmd` and `write_data`
have no handler, so the trailing `cs←1` does not run, contradicting the
claim that chip-select returns to 1 on every exit path. -/
theorem C5_cs_left_selected :
    (write_cmd false ⟨1, 0⟩ 0xAE).1.cs = 0 ∧
    (write_data false ⟨1, 0⟩ [0xFF]).1.cs = 0 :=
  ⟨rfl, rfl⟩

/-- C5 amended: every framed write deasserts chip-select when the
transport write completes; when the transport write raises, chip-select is
left asserted. -/
theorem C5_cs_deassert (p : Pins) (cmd : Nat) (buf : List Nat) :
    (write_cmd true p cmd).1.cs = 1 ∧
    (write_data true p buf).1.cs = 1 ∧
    (write_cmd false p cmd).1.cs = 0 ∧
    (write_data false p buf).1.cs = 0 :=
  ⟨rfl, rfl, rfl, rfl⟩

/-- C6: `contrast(level)` emits exactly the contrast opcode `0x81` and the
clamped byte `max(0, min(255, level))` — in particular `0x00` for `-5`,
`0xFF` for `300`, `0x80` for `128` — and the pixel buffer is not
modified. -/
theorem C6_contrast (s : DisplayState) (level : Int) :
    (runOp s (Op.contrast' level)).2 =
      [Emit.cmdByte 0x81, Emit.cmdByte (max 0 (min 255 level)).toNat] ∧
    (max 0 (min 255 level)).toNat ≤ 255 ∧
    (runOp s (Op.contrast' level)).1.buffer = s.buffer ∧
    contrast (-5) = [Emit.cmdByte 0x81, Emit.cmdByte 0x00] ∧
    contrast 300 = [Emit.cmdByte 0x81, Emit.cmdByte 0xFF] ∧
    contrast 128 = [Emit.cmdByte 0x81, Emit.cmdByte 0x80] := by
  refine ⟨rfl, ?_, rfl, by decide, by decide, by decide⟩
  have h1 : min 255 level ≤ (255 : Int) := min_le_left _ _
  have h2 : max 0 (min 255 level) ≤ (255 : Int) := max_le (by norm_num) h1
  omega

/-- C7: the reset-line trace of a fresh construction is, in order, high
(held ≥ 1 ms: the pin is configured high and a 1 ms delay follows the
high write), then low with a 10 ms ≥ 10 ms delay, then high with a 10 ms
≥ 10 ms delay; everything after it in the construction trace is a framed
command byte, so all three delays precede the first command byte on the
bus. -/
theorem C7_reset_trace (h : Nat) (hh : h = 32 ∨ h = 64) :
    (mkDisplay 128 h).2 =
      [Emit.pinInit .dc 0, Emit.pinInit .rst 1, Emit.pinInit .cs 1,
       Emit.pinSet .rst 1, Emit.sleepMs 1,
       Emit.pinSet .rst 0, Emit.sleepMs 10,
       Emit.pinSet .rst 1, Emit.sleepMs 10] ++ init_display h ∧
    ∀ e ∈ init_display h, e.isCmd = true := by
  rcases hh with rfl | rfl <;> exact ⟨rfl, by decide⟩

/-- Witness for C7 at the concrete height 64. -/
theorem C7_reset_trace_witness :
    (64 = 32 ∨ 64 = 64) ∧
    ((mkDisplay 128 64).2 =
      [Emit.pinInit .dc 0, Emit.pinInit .rst 1, Emit.pinInit .cs 1,
       Emit.pinSet .rst 1, Emit.sleepMs 1,
       Emit.pinSet .rst 0, Emit.sleepMs 10,
       Emit.pinSet .rst 1, Emit.sleepMs 10] ++ init_display 64 ∧
     ∀ e ∈ init_display 64, e.isCmd = true) :=
  ⟨by decide, C7_reset_trace 64 (by decide)⟩

/-- C8: `invert(true)` emits exactly the inverted-display opcode `0xA7`,
`invert(false)` exactly the normal-display opcode `0xA6`, and the pair of
calls leaves the pixel buffer byte-for-byte unchanged. -/
theorem C8_invert_wire (s : DisplayState) :
    (runOp s (Op.invert' true)).2 = [Emit.cmdByte 0xA7] ∧
    (runOp s (Op.invert' false)).2 = [Emit.cmdByte 0xA6] ∧
    (runOps s [Op.invert' true, Op.invert' false]).1.buffer = s.buffer :=
  ⟨rfl, rfl, rfl⟩

/-- C9: `poweroff()` emits exactly the display-off opcode `0xAE`,
`poweron()` exactly the display-on opcode `0xAF`, and the pair of calls
leaves the pixel buffer unchanged. -/
theorem C9_power_wire (s : DisplayState) :
    (runOp s Op.poweroff').2 = [Emit.cmdByte 0xAE] ∧
    (runOp s Op.poweron').2 = [Emit.cmdByte 0xAF] ∧
    (runOps s [Op.poweroff', Op.poweron']).1.buffer = s.buffer :=
  ⟨rfl, rfl, rfl⟩

/-- C10: `show()` never modifies the driver's state — the buffer, width,
height and pages fields after a `show()` call are those from before it. -/
theorem C10_show_pure (s : DisplayState) :
    (runOp s Op.show').1.buffer = s.buffer ∧
    (runOp s Op.show').1.width = s.width ∧
    (runOp s Op.show').1.height = s.height ∧
    (runOp s Op.show').1.pages = s.pages :=
  ⟨rfl, rfl, rfl, rfl⟩

end SSD1309
